import Mathlib

/-
Verification of the Lua binding for the asynchronous client reader/writer
(src/cpp/bind/client/BindClientAsyncReaderWriter.cpp).

The binding façade itself (the factory GetClientAsyncReaderWriter and the
registration of the write and close_writing methods) is embedded from the
source.  The helpers it calls — impl::GetTimeoutMs, CbWrapper::WrapLuaStatusCb —
and the native grpc_cb_core::ClientAsyncReaderWriter are not part of the
source slice; their behaviour is modelled from the specification, as marked
on each definition.
-/

/-- A shared pointer to a native channel.  Opaque: either null (none) or a
token identifying the channel object. -/
abbrev ChannelSptr := Option Nat

/-- A shared pointer to a native completion queue; null is represented by
none. -/
abbrev CompletionQueueSptr := Option Nat

/-- A host-supplied timeout argument (a LuaRef): absent (nil), a numeric
seconds count, or some non-numeric value. -/
inductive LuaTimeout where
  | absent
  | num (s : Int)
  | nonNumeric
deriving DecidableEq, Repr

/-- Modelled from the spec: the fixed default used when the timeout argument
is absent.  The spec fixes only that a single fixed default exists (the
library default timeout), not its numeric value; any concrete constant
serves the role. -/
def defaultTimeoutMs : Int := 100 * 1000

/-- Modelled from the spec: the timeout normalizer impl::GetTimeoutMs (its
definition is not under src).  Absent maps to the fixed default; a
non-negative seconds count s maps to s * 1000 milliseconds; negative or
non-numeric input fails fast instead of being clamped.  No side effects. -/
def impl.GetTimeoutMs (timeoutSec : LuaTimeout) : Except String Int :=
  match timeoutSec with
  | LuaTimeout.absent => Except.ok defaultTimeoutMs
  | LuaTimeout.num s =>
      if s < 0 then Except.error "GetTimeoutMs: negative timeout"
      else Except.ok (s * 1000)
  | LuaTimeout.nonNumeric => Except.error "GetTimeoutMs: timeout is not a number"

/-- A native terminal status: a success/failure discriminant and a
human-readable message. -/
structure Status where
  ok : Bool
  message : String
deriving DecidableEq, Repr

/-- A host-representable completion value delivered to the Lua callback:
nil on success, a structured failure value carrying the message on
failure. -/
inductive HostValue where
  | nil
  | errVal (message : String)
deriving DecidableEq, Repr

/-- A host closure: consumes the marshalled completion value; it may itself
raise a host error, modelled as Except.error. -/
abbrev HostClosure := HostValue → Except String Unit

/-- Modelled from the spec: marshal a native Status into the
host-representable value — nil on success, a structured failure value
containing the message on failure. -/
def marshalStatus (st : Status) : HostValue :=
  if st.ok then HostValue.nil else HostValue.errVal st.message

/-- What the native layer observes when a wrapped callback returns: a normal
return, or a raised error propagating out of the wrapper. -/
inductive NativeOutcome where
  | normal
  | raised (e : String)
deriving DecidableEq, Repr

/-- Modelled from the spec: the state of one wrapped status callback — the
captured host closure reference (none when the host passed no callback), a
call-once flag, and whether the captured reference has been released. -/
structure WrappedCb where
  luaCb : Option HostClosure
  called : Bool
  released : Bool

/-- The observable result of the native layer invoking a wrapped callback:
the updated wrapper state, the list of entries into the host runtime (the
values the host closure observed), what the native layer sees on return,
and the best-effort log of a host-callback error. -/
structure InvokeResult where
  wrapper : WrappedCb
  hostEntries : List HostValue
  outcome : NativeOutcome
  log : Option String

/-- Modelled from the spec: CbWrapper::WrapLuaStatusCb (its definition is
not under src) captures the host closure reference into a fresh wrapper
with the call-once flag clear and the reference not yet released. -/
def CbWrapper.WrapLuaStatusCb (luaStatusCb : Option HostClosure) : WrappedCb :=
  { luaCb := luaStatusCb, called := false, released := false }

/-- Modelled from the spec: one invocation of the wrapped callback by the
native layer with a terminal status.  An absent closure makes the callback a
no-op that discards the status; a second invocation after the call-once
flag is set does nothing; otherwise the status is marshalled, the closure is
invoked with it, any error the closure raises is caught at the boundary and
logged rather than propagated, and the captured reference is released
regardless. -/
def WrappedCb.invoke (w : WrappedCb) (st : Status) : InvokeResult :=
  match w.luaCb with
  | none => { wrapper := w, hostEntries := [], outcome := NativeOutcome.normal, log := none }
  | some f =>
      if w.called then
        { wrapper := w, hostEntries := [], outcome := NativeOutcome.normal, log := none }
      else
        let v := marshalStatus st
        let spentW : WrappedCb := { luaCb := none, called := true, released := true }
        match f v with
        | Except.ok _ =>
            { wrapper := spentW, hostEntries := [v], outcome := NativeOutcome.normal, log := none }
        | Except.error e =>
            { wrapper := spentW, hostEntries := [v], outcome := NativeOutcome.normal, log := some e }

/-- A sequence of invocations of the same wrapped callback by the native
layer, collecting every entry into the host runtime. -/
def WrappedCb.invokeMany (w : WrappedCb) (sts : List Status) : WrappedCb × List HostValue :=
  match sts with
  | [] => (w, [])
  | st :: rest =>
      let r := w.invoke st
      let p := r.wrapper.invokeMany rest
      (p.1, r.hostEntries ++ p.2)

/-- Modelled from the spec: the native grpc_cb_core::ClientAsyncReaderWriter
handle, per the interface the spec pins for it — constructed from (channel,
method, queue, timeoutMs, callback), with a one-shot half-close of the
write side and FIFO buffering of accepted writes. -/
structure ClientAsyncReaderWriter where
  channel : ChannelSptr
  method : String
  cq : CompletionQueueSptr
  timeoutMs : Int
  cbStatus : WrappedCb
  writesClosed : Bool
  pendingWrites : List String

/-- Modelled from the spec: the native constructor
ClientAsyncReaderWriter(channel, method, queue, timeoutMs, callback); the
handle begins life open for writing with no pending writes. -/
def ClientAsyncReaderWriter.construct (pChannel : ChannelSptr) (sMethod : String)
    (pCq : CompletionQueueSptr) (nTimeoutMs : Int) (cbStatus : WrappedCb) :
    ClientAsyncReaderWriter :=
  { channel := pChannel, method := sMethod, cq := pCq, timeoutMs := nTimeoutMs,
    cbStatus := cbStatus, writesClosed := false, pendingWrites := [] }

/-- Modelled from the spec: ClientAsyncReaderWriter::Write(message) -> bool.
While the handle is open for writing the message is enqueued (FIFO) and
acknowledged with true; after the write side is closed the write fails with
false instead of being silently ignored. -/
def ClientAsyncReaderWriter.Write (rw : ClientAsyncReaderWriter) (sMsg : String) :
    ClientAsyncReaderWriter × Bool :=
  if rw.writesClosed then (rw, false)
  else ({ rw with pendingWrites := rw.pendingWrites ++ [sMsg] }, true)

/-- Modelled from the spec: ClientAsyncReaderWriter::CloseWriting() signals
that no further writes will be issued. -/
def ClientAsyncReaderWriter.CloseWriting (rw : ClientAsyncReaderWriter) :
    ClientAsyncReaderWriter :=
  { rw with writesClosed := true }

/-- The factory GetClientAsyncReaderWriter from the source: asserts the
completion queue is non-null, normalizes the timeout, wraps the Lua status
callback, and constructs the native handle.  The assert and a failed
normalization are modelled as Except.error: the call fails fast and no
handle is produced. -/
def GetClientAsyncReaderWriter (pChannel : ChannelSptr) (sMethod : String)
    (pCq : CompletionQueueSptr) (timeoutSec : LuaTimeout)
    (luaStatusCb : Option HostClosure) : Except String ClientAsyncReaderWriter :=
  if pCq.isNone then Except.error "assert(pCq) failed"
  else
    match impl.GetTimeoutMs timeoutSec with
    | Except.error e => Except.error e
    | Except.ok nTimeoutMs =>
        Except.ok (ClientAsyncReaderWriter.construct pChannel sMethod pCq nTimeoutMs
          (CbWrapper.WrapLuaStatusCb luaStatusCb))

/-- The operation surface registered on the Lua class by
bind::BindClientAsyncReaderWriter: the factory plus the two forwarded
methods. -/
structure LuaClassBinding where
  factory : ChannelSptr → String → CompletionQueueSptr → LuaTimeout →
      Option HostClosure → Except String ClientAsyncReaderWriter
  write : ClientAsyncReaderWriter → String → ClientAsyncReaderWriter × Bool
  close_writing : ClientAsyncReaderWriter → ClientAsyncReaderWriter

/-- The registration performed by bind::BindClientAsyncReaderWriter:
addFactory(&GetClientAsyncReaderWriter), addFunction("write", &Write),
addFunction("close_writing", &CloseWriting) — each exposed operation is a
direct forward. -/
def clientAsyncReaderWriterBinding : LuaClassBinding :=
  { factory := GetClientAsyncReaderWriter
  , write := ClientAsyncReaderWriter.Write
  , close_writing := ClientAsyncReaderWriter.CloseWriting }

/-- Issue a list of writes on a handle in order, collecting the boolean
acknowledgements. -/
def writeAll (rw : ClientAsyncReaderWriter) (msgs : List String) :
    ClientAsyncReaderWriter × List Bool :=
  match msgs with
  | [] => (rw, [])
  | m :: rest =>
      let r := rw.Write m
      let p := writeAll r.1 rest
      (p.1, r.2 :: p.2)

/-- A wrapper that can no longer enter the host runtime: its captured
reference is gone or its call-once flag is set. -/
def WrappedCb.Spent (w : WrappedCb) : Prop :=
  w.luaCb = none ∨ w.called = true

lemma invoke_of_spent (w : WrappedCb) (st : Status) (h : w.Spent) :
    (w.invoke st).hostEntries = [] ∧ (w.invoke st).wrapper.Spent := by
  rcases h with h | h
  · simp [WrappedCb.invoke, h, WrappedCb.Spent]
  · cases hl : w.luaCb with
    | none => simp [WrappedCb.invoke, hl, WrappedCb.Spent]
    | some f => simp [WrappedCb.invoke, hl, h, WrappedCb.Spent]

lemma invokeMany_of_spent (sts : List Status) (w : WrappedCb) (h : w.Spent) :
    (w.invokeMany sts).2 = [] := by
  induction sts generalizing w with
  | nil => simp [WrappedCb.invokeMany]
  | cons st rest ih =>
      obtain ⟨h1, h2⟩ := invoke_of_spent w st h
      simp [WrappedCb.invokeMany, h1, ih _ h2]

lemma invoke_fresh (f : HostClosure) (st : Status) :
    ((CbWrapper.WrapLuaStatusCb (some f)).invoke st).hostEntries = [marshalStatus st] ∧
    ((CbWrapper.WrapLuaStatusCb (some f)).invoke st).wrapper.Spent := by
  cases hf : f (marshalStatus st) <;>
    simp [WrappedCb.invoke, CbWrapper.WrapLuaStatusCb, hf, WrappedCb.Spent]

lemma write_cbStatus (rw : ClientAsyncReaderWriter) (sMsg : String) :
    (rw.Write sMsg).1.cbStatus = rw.cbStatus := by
  unfold ClientAsyncReaderWriter.Write
  split <;> rfl

lemma write_writesClosed (rw : ClientAsyncReaderWriter) (sMsg : String) :
    (rw.Write sMsg).1.writesClosed = rw.writesClosed := by
  unfold ClientAsyncReaderWriter.Write
  split <;> simp_all

lemma factory_ok (pChannel : ChannelSptr) (sMethod : String)
    (pCq : CompletionQueueSptr) (timeoutSec : LuaTimeout)
    (luaStatusCb : Option HostClosure) (h : ClientAsyncReaderWriter)
    (hok : GetClientAsyncReaderWriter pChannel sMethod pCq timeoutSec luaStatusCb
           = Except.ok h) :
    pCq.isSome = true ∧ ∃ ms, impl.GetTimeoutMs timeoutSec = Except.ok ms ∧
      h = ClientAsyncReaderWriter.construct pChannel sMethod pCq ms
            (CbWrapper.WrapLuaStatusCb luaStatusCb) := by
  unfold GetClientAsyncReaderWriter at hok
  cases pCq with
  | none => simp at hok
  | some q =>
      simp only [Option.isNone_some, Bool.false_eq_true, if_false] at hok
      cases ht : impl.GetTimeoutMs timeoutSec with
      | error e => rw [ht] at hok; exact absurd hok (by simp)
      | ok ms =>
          rw [ht] at hok
          simp only [Except.ok.injEq] at hok
          exact ⟨rfl, ms, rfl, hok.symm⟩

lemma writeAll_open (msgs : List String) (rw : ClientAsyncReaderWriter)
    (h : rw.writesClosed = false) :
    (writeAll rw msgs).2.all (fun b => b) = true := by
  induction msgs generalizing rw with
  | nil => simp [writeAll]
  | cons m rest ih =>
      have hw : (rw.Write m).2 = true := by
        unfold ClientAsyncReaderWriter.Write
        simp [h]
      have hw1 : (rw.Write m).1.writesClosed = false := by
        rw [write_writesClosed]; exact h
      simp [writeAll, hw, ih _ hw1]

lemma writeAll_closed (msgs : List String) (rw : ClientAsyncReaderWriter)
    (h : rw.writesClosed = true) :
    (writeAll rw msgs).2.all (fun b => !b) = true := by
  induction msgs generalizing rw with
  | nil => simp [writeAll]
  | cons m rest ih =>
      have hw : rw.Write m = (rw, false) := by
        unfold ClientAsyncReaderWriter.Write
        simp [h]
      simp [writeAll, hw, ih _ h]

/-- Claim C1: a factory call with a null completion queue fails fast and
produces no handle; a handle is returned only when the completion queue is
non-null. -/
theorem C1_create_requires_queue :
    (∀ (pChannel : ChannelSptr) (sMethod : String) (timeoutSec : LuaTimeout)
        (luaStatusCb : Option HostClosure),
        GetClientAsyncReaderWriter pChannel sMethod none timeoutSec luaStatusCb
          = Except.error "assert(pCq) failed") ∧
    (∀ (pChannel : ChannelSptr) (sMethod : String) (pCq : CompletionQueueSptr)
        (timeoutSec : LuaTimeout) (luaStatusCb : Option HostClosure)
        (h : ClientAsyncReaderWriter),
        GetClientAsyncReaderWriter pChannel sMethod pCq timeoutSec luaStatusCb
          = Except.ok h → pCq.isSome = true) := by
  constructor
  · intro ch m t cb
    rfl
  · intro ch m cq t cb h hok
    exact (factory_ok ch m cq t cb h hok).1

/-- Witness for C1 at concrete inputs: the null-queue call errors, and a
successful call had a non-null queue. -/
theorem C1_create_requires_queue_witness :
    GetClientAsyncReaderWriter none "m" none LuaTimeout.absent none
      = Except.error "assert(pCq) failed" ∧
    (some 0 : CompletionQueueSptr).isSome = true :=
  ⟨C1_create_requires_queue.1 none "m" LuaTimeout.absent none,
   C1_create_requires_queue.2 none "m" (some 0) LuaTimeout.absent none
     (ClientAsyncReaderWriter.construct none "m" (some 0) defaultTimeoutMs
       (CbWrapper.WrapLuaStatusCb none)) rfl⟩

/-- Claim C2: an absent timeout normalizes to the documented default, and a
non-negative seconds count s normalizes to s * 1000 milliseconds. -/
theorem C2_timeout_normalization :
    impl.GetTimeoutMs LuaTimeout.absent = Except.ok defaultTimeoutMs ∧
    ∀ s : Int, 0 ≤ s → impl.GetTimeoutMs (LuaTimeout.num s) = Except.ok (s * 1000) := by
  refine ⟨rfl, ?_⟩
  intro s hs
  simp [impl.GetTimeoutMs, not_lt.mpr hs]

/-- Witness for C2 at the concrete input 3 seconds. -/
theorem C2_timeout_normalization_witness :
    impl.GetTimeoutMs (LuaTimeout.num 3) = Except.ok (3 * 1000) :=
  C2_timeout_normalization.2 3 (by decide)

/-- Claim C3: over any sequence of native invocations of the wrapped status
callback, the host closure is entered at most once. -/
theorem C3_callback_at_most_once (cb : Option HostClosure) (sts : List Status) :
    ((CbWrapper.WrapLuaStatusCb cb).invokeMany sts).2.length ≤ 1 := by
  cases sts with
  | nil => simp [WrappedCb.invokeMany]
  | cons st rest =>
      cases cb with
      | none =>
          have h := invokeMany_of_spent (st :: rest) (CbWrapper.WrapLuaStatusCb none)
            (Or.inl rfl)
          simp [h]
      | some f =>
          obtain ⟨h1, h2⟩ := invoke_fresh f st
          simp [WrappedCb.invokeMany, h1, invokeMany_of_spent rest _ h2]

/-- Claim C4: every write issued while the handle is open for writing is
accepted, and every write issued after close_writing fails. -/
theorem C4_write_lifecycle :
    (∀ (rw : ClientAsyncReaderWriter) (msgs : List String),
        rw.writesClosed = false →
        (writeAll rw msgs).2.all (fun b => b) = true) ∧
    (∀ (rw : ClientAsyncReaderWriter) (msgs : List String),
        (writeAll rw.CloseWriting msgs).2.all (fun b => !b) = true) := by
  constructor
  · intro rw msgs h
    exact writeAll_open msgs rw h
  · intro rw msgs
    exact writeAll_closed msgs _ rfl

/-- Witness for C4: a freshly constructed handle accepts a concrete pair of
writes. -/
theorem C4_write_lifecycle_witness :
    (writeAll
        (ClientAsyncReaderWriter.construct none "m" (some 0) 0
          (CbWrapper.WrapLuaStatusCb none))
        ["a", "b"]).2.all (fun b => b) = true :=
  C4_write_lifecycle.1
    (ClientAsyncReaderWriter.construct none "m" (some 0) 0
      (CbWrapper.WrapLuaStatusCb none))
    ["a", "b"] rfl

/-- Claim C5: the host closure observes nil for a success status and a
structured failure value carrying the message for a failure status; in
particular a failure carrying the message boom delivers a failure value
containing boom. -/
theorem C5_marshalled_value :
    (∀ (f : HostClosure) (st : Status),
        ((CbWrapper.WrapLuaStatusCb (some f)).invoke st).hostEntries
          = [if st.ok then HostValue.nil else HostValue.errVal st.message]) ∧
    (∀ f : HostClosure,
        ((CbWrapper.WrapLuaStatusCb (some f)).invoke
            { ok := true, message := "" }).hostEntries = [HostValue.nil]) ∧
    (∀ f : HostClosure,
        ((CbWrapper.WrapLuaStatusCb (some f)).invoke
            { ok := false, message := "boom" }).hostEntries
          = [HostValue.errVal "boom"]) := by
  have hgen : ∀ (f : HostClosure) (st : Status),
      ((CbWrapper.WrapLuaStatusCb (some f)).invoke st).hostEntries
        = [if st.ok then HostValue.nil else HostValue.errVal st.message] := by
    intro f st
    rw [(invoke_fresh f st).1]
    rfl
  exact ⟨hgen, fun f => hgen f { ok := true, message := "" },
    fun f => hgen f { ok := false, message := "boom" }⟩

/-- Claim C6: a wrapper built from an absent callback is a no-op — each
invocation discards the status, changes nothing and never enters the host
runtime, over any sequence of invocations. -/
theorem C6_absent_callback_noop :
    (∀ st : Status,
        (CbWrapper.WrapLuaStatusCb none).invoke st
          = { wrapper := CbWrapper.WrapLuaStatusCb none, hostEntries := [],
              outcome := NativeOutcome.normal, log := none }) ∧
    (∀ sts : List Status,
        ((CbWrapper.WrapLuaStatusCb none).invokeMany sts).2 = []) := by
  constructor
  · intro st
    rfl
  · intro sts
    exact invokeMany_of_spent sts _ (Or.inl rfl)

/-- Claim C7: a negative or non-numeric timeout makes normalization fail
fast, and the factory call carrying it fails with that error rather than
clamping. -/
theorem C7_invalid_timeout_fails :
    (∀ s : Int, s < 0 →
        impl.GetTimeoutMs (LuaTimeout.num s)
          = Except.error "GetTimeoutMs: negative timeout") ∧
    (impl.GetTimeoutMs LuaTimeout.nonNumeric
        = Except.error "GetTimeoutMs: timeout is not a number") ∧
    (∀ (pChannel : ChannelSptr) (sMethod : String) (q : Nat)
        (luaStatusCb : Option HostClosure) (s : Int), s < 0 →
        GetClientAsyncReaderWriter pChannel sMethod (some q) (LuaTimeout.num s) luaStatusCb
          = Except.error "GetTimeoutMs: negative timeout") ∧
    (∀ (pChannel : ChannelSptr) (sMethod : String) (q : Nat)
        (luaStatusCb : Option HostClosure),
        GetClientAsyncReaderWriter pChannel sMethod (some q) LuaTimeout.nonNumeric luaStatusCb
          = Except.error "GetTimeoutMs: timeout is not a number") := by
  refine ⟨?_, rfl, ?_, ?_⟩
  · intro s hs
    simp [impl.GetTimeoutMs, hs]
  · intro ch m q cb s hs
    simp [GetClientAsyncReaderWriter, impl.GetTimeoutMs, hs]
  · intro ch m q cb
    rfl

/-- Witness for C7 at the concrete input -1 seconds. -/
theorem C7_invalid_timeout_fails_witness :
    impl.GetTimeoutMs (LuaTimeout.num (-1))
      = Except.error "GetTimeoutMs: negative timeout" :=
  C7_invalid_timeout_fails.1 (-1) (by decide)

/-- Claim C8: the captured reference is always released on invocation, and
when the host closure raises an error the wrapper catches it — the native
layer sees a normal return and the error is only logged. -/
theorem C8_host_error_isolated :
    (∀ (f : HostClosure) (st : Status),
        ((CbWrapper.WrapLuaStatusCb (some f)).invoke st).wrapper.released = true) ∧
    (∀ (f : HostClosure) (st : Status) (e : String),
        f (marshalStatus st) = Except.error e →
        ((CbWrapper.WrapLuaStatusCb (some f)).invoke st).outcome = NativeOutcome.normal ∧
        ((CbWrapper.WrapLuaStatusCb (some f)).invoke st).log = some e) := by
  constructor
  · intro f st
    cases hf : f (marshalStatus st) <;>
      simp [WrappedCb.invoke, CbWrapper.WrapLuaStatusCb, hf]
  · intro f st e hf
    simp [WrappedCb.invoke, CbWrapper.WrapLuaStatusCb, hf]

/-- Witness for C8: a closure that always raises boom is invoked at a
concrete status; the native layer sees a normal return and a boom log. -/
theorem C8_host_error_isolated_witness :
    ((CbWrapper.WrapLuaStatusCb (some (fun _ => Except.error "boom"))).invoke
        { ok := true, message := "" }).outcome = NativeOutcome.normal ∧
    ((CbWrapper.WrapLuaStatusCb (some (fun _ => Except.error "boom"))).invoke
        { ok := true, message := "" }).log = some "boom" :=
  C8_host_error_isolated.2 (fun _ => Except.error "boom") { ok := true, message := "" }
    "boom" rfl

/-- Claim C9: every handle the factory returns carries exactly the wrapped
callback built from the supplied Lua callback, and neither exposed
operation (write, close_writing) rebinds it. -/
theorem C9_callback_bound_once :
    ∀ (pChannel : ChannelSptr) (sMethod : String) (pCq : CompletionQueueSptr)
      (timeoutSec : LuaTimeout) (luaStatusCb : Option HostClosure)
      (h : ClientAsyncReaderWriter),
      GetClientAsyncReaderWriter pChannel sMethod pCq timeoutSec luaStatusCb
        = Except.ok h →
      h.cbStatus = CbWrapper.WrapLuaStatusCb luaStatusCb ∧
      (∀ sMsg : String, (h.Write sMsg).1.cbStatus = h.cbStatus) ∧
      h.CloseWriting.cbStatus = h.cbStatus := by
  intro ch m cq t cb h hok
  obtain ⟨-, ms, -, hh⟩ := factory_ok ch m cq t cb h hok
  subst hh
  exact ⟨rfl, fun sMsg => write_cbStatus _ sMsg, rfl⟩

/-- Witness for C9 at a concrete successful factory call. -/
theorem C9_callback_bound_once_witness :
    (ClientAsyncReaderWriter.construct none "m" (some 0) defaultTimeoutMs
        (CbWrapper.WrapLuaStatusCb none)).cbStatus
      = CbWrapper.WrapLuaStatusCb none :=
  (C9_callback_bound_once none "m" (some 0) LuaTimeout.absent none
      (ClientAsyncReaderWriter.construct none "m" (some 0) defaultTimeoutMs
        (CbWrapper.WrapLuaStatusCb none)) rfl).1

/-- Claim C10: the binding façade adds nothing — its write and close_writing
are the native operations themselves, its factory is GetClientAsyncReaderWriter,
every handle it returns is exactly the native constructor applied to
(channel, method, queue, normalized timeout, wrapped callback), and the
host-visible write result is the native boolean ack. -/
theorem C10_facade_direct_forward :
    clientAsyncReaderWriterBinding.write = ClientAsyncReaderWriter.Write ∧
    clientAsyncReaderWriterBinding.close_writing = ClientAsyncReaderWriter.CloseWriting ∧
    clientAsyncReaderWriterBinding.factory = GetClientAsyncReaderWriter ∧
    (∀ (pChannel : ChannelSptr) (sMethod : String) (pCq : CompletionQueueSptr)
        (timeoutSec : LuaTimeout) (luaStatusCb : Option HostClosure)
        (ms : Int) (h : ClientAsyncReaderWriter),
        impl.GetTimeoutMs timeoutSec = Except.ok ms →
        GetClientAsyncReaderWriter pChannel sMethod pCq timeoutSec luaStatusCb
          = Except.ok h →
        h = ClientAsyncReaderWriter.construct pChannel sMethod pCq ms
              (CbWrapper.WrapLuaStatusCb luaStatusCb)) ∧
    (∀ (rw : ClientAsyncReaderWriter) (sMsg : String),
        (clientAsyncReaderWriterBinding.write rw sMsg).2 = (rw.Write sMsg).2) := by
  refine ⟨rfl, rfl, rfl, ?_, fun rw sMsg => rfl⟩
  intro ch m cq t cb ms h ht hok
  obtain ⟨-, ms2, ht2, hh⟩ := factory_ok ch m cq t cb h hok
  rw [ht] at ht2
  injection ht2 with hms
  subst hms
  exact hh

/-- Witness for C10 at a concrete successful factory call. -/
theorem C10_facade_direct_forward_witness :
    ClientAsyncReaderWriter.construct none "m" (some 0) defaultTimeoutMs
        (CbWrapper.WrapLuaStatusCb none)
      = ClientAsyncReaderWriter.construct none "m" (some 0) defaultTimeoutMs
          (CbWrapper.WrapLuaStatusCb none) :=
  C10_facade_direct_forward.2.2.2.1 none "m" (some 0) LuaTimeout.absent none
    defaultTimeoutMs
    (ClientAsyncReaderWriter.construct none "m" (some 0) defaultTimeoutMs
      (CbWrapper.WrapLuaStatusCb none)) rfl rfl
